import Mathlib

/-!
Verification of the promptflow connection-provider core: a shallow embedding of
`promptflow/core/_connection_provider/_connection_provider.py` and
`promptflow/core/_connection_provider/_workspace_connection_provider.py`,
followed by theorems settling the specification claims about provider-config
parsing, HTTP status classification, credential resolution, auth-config
resolution and the remote-to-internal connection normalization.

Python dictionaries are embedded as association lists with unique keys;
Python `None` for a string-valued slot is `Option.none`; functions that raise
are embedded in `Except`.
-/

/-- Decidable equality on `Except`, for evaluating the embedded functions on
concrete inputs. -/
instance exceptDecEq {ε α : Type} [DecidableEq ε] [DecidableEq α] : DecidableEq (Except ε α)
  | .error e, .error f =>
    if h : e = f then .isTrue (by rw [h]) else .isFalse (by simp [h])
  | .error _, .ok _ => .isFalse (by simp)
  | .ok _, .error _ => .isFalse (by simp)
  | .ok a, .ok b =>
    if h : a = b then .isTrue (by rw [h]) else .isFalse (by simp [h])

/-- Kernel-computable model of Python `str.lower()`. -/
def strToLower (s : String) : String := String.mk (s.data.map Char.toLower)

/-- Kernel-computable model of Python `str.startswith(p)`. -/
def strStartsWith (s p : String) : Bool := p.data.isPrefixOf s.data

/-- Kernel-computable model of Python `str.endswith(p)`. -/
def strEndsWith (s p : String) : Bool := p.data.isSuffixOf s.data

/-- A Python `dict` of string keys to string values (metadata, credential key bags). -/
abbrev Dict := List (String × String)

/-- A Python `dict` of string keys to string-or-None values (the assembled value map). -/
abbrev ValDict := List (String × Option String)

/-- Python truthiness of a string-or-None value: `None` and the empty string are falsy. -/
def pyTruthyStr : Option String → Bool
  | some s => !(s == "")
  | none => false

/-- Python `d.get(key)` on a `ValDict`: `none` when the key is absent. -/
def pyDictGet (d : ValDict) (key : String) : Option (Option String) :=
  (d.find? (fun kv => kv.1 == key)).map (fun kv => kv.2)

/-- Python dict merge for unique-keyed dicts, as in a literal with two double-star
splats: keys of `a` in order with values overridden by `b` where present, then the
keys of `b` that are not in `a`, in order. Single-key merges also model
`d[k] = v` assignment. -/
def pyDictMerge (a b : ValDict) : ValDict :=
  a.map (fun kv => (kv.1, (pyDictGet b kv.1).getD kv.2))
    ++ b.filter (fun kv => !(a.any (fun kv0 => kv0.1 == kv.1)))

/-- Source `get_case_insensitive_key(d, key, default)` of
`_workspace_connection_provider.py` lines 57-61: first value whose key matches
case-insensitively, else the default. -/
def get_case_insensitive_key (d : Dict) (key : String) (dflt : Option String) : Option String :=
  match d.find? (fun kv => strToLower kv.1 == strToLower key) with
  | some kv => some kv.2
  | none => dflt

/-- Source constant `FLOW_META_PREFIX = "azureml.flow."` (line 36). -/
def FLOW_META_PFX : String := "azureml.flow."

namespace ConnectionCategory

/-- Source `ConnectionCategory` string constants (lines 41-49). -/
def AzureOpenAI : String := "AzureOpenAI"

def CognitiveSearch : String := "CognitiveSearch"

def CognitiveService : String := "CognitiveService"

def CustomKeys : String := "CustomKeys"

def OpenAI : String := "OpenAI"

def Serp : String := "Serp"

def Serverless : String := "Serverless"

def BingLLMSearch : String := "BingLLMSearch"

end ConnectionCategory

namespace ConnectionAuthType

/-- Source `ConnectionAuthType` string constants (lines 52-54). -/
def ApiKey : String := "ApiKey"

def AAD : String := "AAD"

end ConnectionAuthType

namespace ConnectionAuthMode

/-- Modelled from the spec: the auth-mode constants live in `promptflow._constants`,
which is not under src; the spec names the two modes Key and IdentityToken (MEID
token). Their concrete string values are opaque to every claim; only their identity
as the Key mode and the identity-token mode matters. -/
def KEY : String := "key"

/-- Modelled from the spec: the identity-token (MEID) auth mode constant. -/
def MEID_TOKEN : String := "meid_token"

end ConnectionAuthMode

/-- Modelled from the spec: the class name of the generic custom-connection type
(`promptflow.core._connection.CustomConnection`, not under src); the source
compares the resolved type name against this class name. -/
def CustomConnection_name : String := "CustomConnection"

/-- The `credentials` slot of a remote connection resource: an optional scalar
`key` and a `keys` bag (used by the CustomKeys category). -/
structure Credentials where
  key : Option String
  keys : Dict
deriving DecidableEq

/-- The wire-level remote connection resource properties: category, auth type
(`none` models a non-string value such as null), target, credentials and the
metadata property bag. -/
structure ConnectionProperties where
  category : String
  auth_type : Option String
  target : Option String
  credentials : Credentials
  metadata : Dict
deriving DecidableEq

/-- The normalized internal connection descriptor returned by
`build_connection_dict_from_rest_object`: type name, module name, optional
secret key names, and the value map. -/
structure ConnectionDict where
  type : String
  module : String
  secret_keys : Option (List String)
  value : ValDict
deriving DecidableEq

/-- Errors raised by the normalizer. -/
inductive ConnError where
  | unknownConnectionType (category name : String)
  | unsupportedConnectionAuthType (auth_type : Option String)
deriving DecidableEq

/-- Source `validate_and_fallback_connection_type` (lines 149-172): an explicitly
given truthy type name is returned unchanged; otherwise the categories
AzureOpenAI, CognitiveSearch and Serverless fall back to the category name
(Python membership in a three-element list is the three-way equality
disjunction); CognitiveService dispatches on the case-insensitive Kind metadata
entry; everything else raises UnknownConnectionType carrying category and name. -/
def validate_and_fallback_connection_type (name : String) (type_name : Option String)
    (category : String) (metadata : Dict) : Except ConnError String :=
  if pyTruthyStr type_name then .ok (type_name.getD "")
  else if category = ConnectionCategory.AzureOpenAI ∨ category = ConnectionCategory.CognitiveSearch
      ∨ category = ConnectionCategory.Serverless then .ok category
  else if category = ConnectionCategory.CognitiveService then
    match get_case_insensitive_key metadata "Kind" none with
    | some k =>
      if k = "Content Safety" then .ok "AzureContentSafety"
      else if k = "Form Recognizer" then .ok "FormRecognizer"
      else .error (ConnError.unknownConnectionType category name)
    | none => .error (ConnError.unknownConnectionType category name)
  else .error (ConnError.unknownConnectionType category name)

/-- Source `get_auth_config` (lines 211-219): a non-string auth type raises
UnsupportedConnectionAuthType; ApiKey (case-insensitive) yields the
credentials key with Key auth mode; AAD yields a null api key with the
identity-token auth mode; any other string raises UnsupportedConnectionAuthType. -/
def get_auth_config (props : ConnectionProperties) : Except ConnError ValDict :=
  match props.auth_type with
  | none => .error (ConnError.unsupportedConnectionAuthType none)
  | some t =>
    if strToLower t = strToLower ConnectionAuthType.ApiKey then
      .ok [("api_key", props.credentials.key), ("auth_mode", some ConnectionAuthMode.KEY)]
    else if strToLower t = strToLower ConnectionAuthType.AAD then
      .ok [("api_key", none), ("auth_mode", some ConnectionAuthMode.MEID_TOKEN)]
    else .error (ConnError.unsupportedConnectionAuthType (some t))

/-- Source line 208: append the Connection suffix when the resolved type name
does not already end with it. -/
def normalize_type_name (t : String) : String :=
  if !(strEndsWith t "Connection") then t ++ "Connection" else t

/-- Source lines 228-231: assign `value["resource_id"]` when the ResourceId
metadata entry is truthy (AzureOpenAI only). -/
def azure_openai_resource_id (value : ValDict) (properties : ConnectionProperties) : ValDict :=
  if pyTruthyStr (get_case_insensitive_key properties.metadata "ResourceId" none) then
    pyDictMerge value [("resource_id", get_case_insensitive_key properties.metadata "ResourceId" none)]
  else value

/-- Source lines 221-265: the category dispatch of
`build_connection_dict_from_rest_object`, producing the pre-filter value map and
the optional secret key names (set only in the CustomKeys branch when the
resolved type name is the generic custom-connection class name). -/
def category_value (name type_name : String) (properties : ConnectionProperties) :
    Except ConnError (ValDict × Option (List String)) :=
  if properties.category = ConnectionCategory.AzureOpenAI then
    match get_auth_config properties with
    | .error e => .error e
    | .ok auth =>
      .ok (azure_openai_resource_id
            (pyDictMerge auth
              [("api_base", properties.target),
               ("api_type", get_case_insensitive_key properties.metadata "ApiType" none),
               ("api_version", get_case_insensitive_key properties.metadata "ApiVersion" none)])
            properties, none)
  else if properties.category = ConnectionCategory.CognitiveSearch then
    match get_auth_config properties with
    | .error e => .error e
    | .ok auth =>
      .ok (pyDictMerge auth
            [("api_base", properties.target),
             ("api_version", get_case_insensitive_key properties.metadata "ApiVersion" none)], none)
  else if properties.category = ConnectionCategory.Serverless then
    match get_auth_config properties with
    | .error e => .error e
    | .ok auth => .ok (pyDictMerge auth [("api_base", properties.target)], none)
  else if properties.category = ConnectionCategory.CognitiveService then
    match get_auth_config properties with
    | .error e => .error e
    | .ok auth =>
      .ok (pyDictMerge auth
            [("endpoint", properties.target),
             ("api_version", get_case_insensitive_key properties.metadata "ApiVersion" none)], none)
  else if properties.category = ConnectionCategory.CustomKeys then
    .ok (pyDictMerge (properties.credentials.keys.map (fun kv => (kv.1, some kv.2)))
          ((properties.metadata.filter (fun kv => !(strStartsWith kv.1 FLOW_META_PFX))).map
            (fun kv => (kv.1, some kv.2))),
        if type_name = CustomConnection_name then
          some (properties.credentials.keys.map (fun kv => kv.1))
        else none)
  else .error (ConnError.unknownConnectionType properties.category name)

/-- Source `build_connection_dict_from_rest_object` (lines 174-267): resolve the
type name from the flow metadata entry with category fallback, resolve the
module with its default, normalize the Connection suffix, assemble the
category-specific value map, and filter falsy values out of it. -/
def build_connection_dict_from_rest_object (name : String) (properties : ConnectionProperties) :
    Except ConnError ConnectionDict :=
  match validate_and_fallback_connection_type name
      (get_case_insensitive_key properties.metadata (FLOW_META_PFX ++ "connection_type") none)
      properties.category properties.metadata with
  | .error e => .error e
  | .ok resolved =>
    match category_value name (normalize_type_name resolved) properties with
    | .error e => .error e
    | .ok vs =>
      .ok { type := normalize_type_name resolved,
            module := (get_case_insensitive_key properties.metadata (FLOW_META_PFX ++ "module")
              (some "promptflow.connections")).getD "promptflow.connections",
            secret_keys := vs.2,
            value := vs.1.filter (fun kv => pyTruthyStr kv.2) }

/-- The result of classifying one HTTP response in `open_url`: the three typed
failures or a success carrying either the raw parsed structure (left) or the
deserialized model (right). -/
inductive OpenUrlResult (α β : Type) where
  | accessDenied (operation : String)
  | openUrlFailedUserError (url reason : String)
  | openUrlFailed (url reason : String)
  | ok (data : α ⊕ β)
deriving DecidableEq

/-- Source `WorkspaceConnectionProvider.open_url` (lines 115-147), with the
transport abstracted: the response is given by its raw status code, reason and
already-parsed JSON body `data`; `model` is the optional deserializer. Status
403 raises AccessDenied on the url; any other 4xx raises OpenURLFailedUserError
with url and reason; any remaining non-200 raises OpenURLFailed with url and
reason; 200 returns the body, deserialized when a model is supplied. -/
def open_url {α β : Type} (token : String) (status_code : Nat) (url reason : String)
    (data : α) (model : Option (α → β)) : OpenUrlResult α β :=
  if status_code = 403 then OpenUrlResult.accessDenied url
  else if 400 ≤ status_code ∧ status_code < 500 then OpenUrlResult.openUrlFailedUserError url reason
  else if status_code ≠ 200 then OpenUrlResult.openUrlFailed url reason
  else
    match model with
    | some deserialize => OpenUrlResult.ok (Sum.inr (deserialize data))
    | none => OpenUrlResult.ok (Sum.inl data)

/-- The credential value returned by `_get_credential`: one of the three
DefaultAzureCredential chain variants the source constructs. -/
inductive Credential where
  | defaultAzureCredentialExcludeInteractiveBrowser
  | defaultAzureCredentialWithDeviceCodeFallback
  | defaultAzureCredentialIncludeInteractiveBrowser
deriving DecidableEq

/-- The typed failure of `_get_credential`. -/
inductive CredentialError where
  | accountNotSetUp
deriving DecidableEq

/-- Source `WorkspaceConnectionProvider._get_credential` (lines 85-113), with the
environment signals abstracted as booleans: `from_cli` is `is_from_cli()`,
`arm_token_ok` is whether obtaining and validating the ambient credential with a
management token succeeds inside the try block, `interactive_disabled` is
`interactive_credential_disabled()` and `codespaces` is `is_github_codespaces()`.
The CLI branch raises AccountNotSetUp on validation failure and otherwise falls
through without returning; the remaining branches pick the credential chain. -/
def _get_credential (from_cli arm_token_ok interactive_disabled codespaces : Bool) :
    Except CredentialError Credential :=
  if from_cli && !arm_token_ok then .error CredentialError.accountNotSetUp
  else if interactive_disabled then .ok Credential.defaultAzureCredentialExcludeInteractiveBrowser
  else if codespaces then .ok Credential.defaultAzureCredentialWithDeviceCodeFallback
  else .ok Credential.defaultAzureCredentialIncludeInteractiveBrowser

namespace ConnectionProviderConfig

/-- Modelled from the spec: the provider-config constants live in
`promptflow._constants`, which is not under src. The docstring of
`init_from_provider_config` gives the two accepted values: the literal `local`
and a URI whose scheme token is `azureml`. -/
def LOCAL : String := "local"

/-- Modelled from the spec: the scheme token the source prefix-checks remote
provider-config strings against. -/
def AZUREML : String := "azureml"

end ConnectionProviderConfig

/-- Splits a character list at every slash, accumulating the current segment. -/
def splitSlashAux : List Char → List Char → List String
  | [], acc => [String.mk acc.reverse]
  | c :: cs, acc =>
    if c = '/' then String.mk acc.reverse :: splitSlashAux cs []
    else splitSlashAux cs (c :: acc)

/-- Splits a string at every slash. -/
def splitSlash (s : String) : List String := splitSlashAux s.data []

/-- Modelled from the spec: `extract_workspace` lives in
`_connection_provider/_utils.py`, which is not under src. The spec fixes the
accepted shape
`azureml://subscriptions/<id>/resourceGroups/<rg>/providers/Microsoft.MachineLearningServices/workspaces/<name>`
and states that malformed strings are rejected at parse time; the parse yields
the subscription, resource group and workspace segments. -/
def extract_workspace (provider_config : String) : Option (String × String × String) :=
  match splitSlash provider_config with
  | ["azureml:", "", "subscriptions", sub, "resourceGroups", rg, "providers",
     "Microsoft.MachineLearningServices", "workspaces", ws] =>
    if sub ≠ "" ∧ rg ≠ "" ∧ ws ≠ "" then some (sub, rg, ws) else none
  | _ => none

/-- The provider variant constructed by `init_from_provider_config`. -/
inductive ConnectionProviderResult where
  | localProvider
  | workspaceProvider (subscription_id resource_group workspace_name : String)
deriving DecidableEq

/-- The typed failures of provider construction. -/
inductive ProviderConfigError where
  | unsupportedConnectionProviderConfig (message : String)
  | malformedConnectionProviderConfig (provider_config : String)
deriving DecidableEq

/-- Source `ConnectionProvider.init_from_provider_config`
(`_connection_provider.py` lines 39-63): an empty or `local` config yields the
local provider; a config starting with the azureml scheme token is parsed by
`extract_workspace` into the workspace provider, a failing parse being rejected
as malformed; anything else raises UnsupportedConnectionProviderConfig with the
offending string and the two accepted forms embedded in the message. -/
def init_from_provider_config (provider_config : String) :
    Except ProviderConfigError ConnectionProviderResult :=
  if provider_config = "" ∨ provider_config = ConnectionProviderConfig.LOCAL then
    .ok ConnectionProviderResult.localProvider
  else if strStartsWith provider_config ConnectionProviderConfig.AZUREML then
    match extract_workspace provider_config with
    | some (sub, rg, ws) => .ok (ConnectionProviderResult.workspaceProvider sub rg ws)
    | none => .error (ProviderConfigError.malformedConnectionProviderConfig provider_config)
  else
    .error (ProviderConfigError.unsupportedConnectionProviderConfig
      ("Unsupported connection provider config: " ++ provider_config ++
       ", only local and azureml://subscriptions/<your-subscription>/resourceGroups/<your-resourcegroup>/providers/Microsoft.MachineLearningServices/workspaces/<your-workspace> are expected as value."))

/-- Reference definition for claim C4, transcribed from the specification words:
a type name explicitly present (a non-empty string; the empty string is no type
name) is returned regardless of category; else the categories AzureOpenAI,
CognitiveSearch and Serverless resolve to the category name; else the
CognitiveService category maps the Kind metadata field, Content Safety to
AzureContentSafety and Form Recognizer to FormRecognizer; every other kind or
category raises UnknownConnectionType carrying the category and connection
name. -/
def resolveTypeNameSpec (name : String) (type_name : Option String)
    (category : String) (metadata : Dict) : Except ConnError String :=
  match type_name with
  | some t =>
    if t ≠ "" then .ok t
    else
      if category = "AzureOpenAI" ∨ category = "CognitiveSearch" ∨ category = "Serverless" then
        .ok category
      else if category = "CognitiveService" then
        match get_case_insensitive_key metadata "Kind" none with
        | some k =>
          if k = "Content Safety" then .ok "AzureContentSafety"
          else if k = "Form Recognizer" then .ok "FormRecognizer"
          else .error (ConnError.unknownConnectionType category name)
        | none => .error (ConnError.unknownConnectionType category name)
      else .error (ConnError.unknownConnectionType category name)
  | none =>
    if category = "AzureOpenAI" ∨ category = "CognitiveSearch" ∨ category = "Serverless" then
      .ok category
    else if category = "CognitiveService" then
      match get_case_insensitive_key metadata "Kind" none with
      | some k =>
        if k = "Content Safety" then .ok "AzureContentSafety"
        else if k = "Form Recognizer" then .ok "FormRecognizer"
        else .error (ConnError.unknownConnectionType category name)
      | none => .error (ConnError.unknownConnectionType category name)
    else .error (ConnError.unknownConnectionType category name)

/-- Every value in a successfully built descriptor value map is Python-truthy:
the final step of `build_connection_dict_from_rest_object` filters the assembled
map through `pyTruthyStr`. -/
theorem build_value_truthy (name : String) (properties : ConnectionProperties)
    (d : ConnectionDict)
    (h : build_connection_dict_from_rest_object name properties = .ok d) :
    ∀ kv ∈ d.value, pyTruthyStr kv.2 = true := by
  intro kv hkv
  unfold build_connection_dict_from_rest_object at h
  split at h
  · exact Except.noConfusion h
  · split at h
    · exact Except.noConfusion h
    · injection h with h
      subst h
      exact (List.mem_filter.mp hkv).2

/-- C1 counterexample: for the CustomKeys resource with credential keys
a to x and b to empty, and metadata holding only the flow-prefixed foo entry and
the plain entry, `build_connection_dict_from_rest_object` does not return a
descriptor at all: with no explicit connection type in metadata, the CustomKeys
category has no fallback and UnknownConnectionType is raised. -/
theorem c1_counterexample :
    build_connection_dict_from_rest_object "test_connection"
      { category := ConnectionCategory.CustomKeys, auth_type := none, target := none,
        credentials := { key := none, keys := [("a", "x"), ("b", "")] },
        metadata := [("azureml.flow.foo", "ignored"), ("plain", "keep")] }
      = .error (ConnError.unknownConnectionType "CustomKeys" "test_connection") := by decide

/-- C1 amended: for the same CustomKeys resource once the metadata additionally
carries an explicit flow connection-type entry (here Custom, suffix-normalized
to CustomConnection), `build_connection_dict_from_rest_object` returns a
descriptor whose value map is exactly a to x and plain to keep: the empty-valued
credential key b and every flow-prefixed metadata entry are dropped. -/
theorem c1_amended :
    build_connection_dict_from_rest_object "test_connection"
      { category := ConnectionCategory.CustomKeys, auth_type := none, target := none,
        credentials := { key := none, keys := [("a", "x"), ("b", "")] },
        metadata := [("azureml.flow.connection_type", "Custom"),
                     ("azureml.flow.foo", "ignored"), ("plain", "keep")] }
      = .ok { type := "CustomConnection", module := "promptflow.connections",
              secret_keys := some ["a", "b"],
              value := [("a", some "x"), ("plain", some "keep")] } := by decide

/-- C2 counterexample: the provider-config string azureml://bad is neither empty
nor local and does not match the remote-workspace URI shape, yet
`init_from_provider_config` fails with the malformed-config parse error, not
with UnsupportedConnectionProviderConfig, because the source only checks the
azureml scheme token as a string prefix before handing the string to the
workspace extraction parse. -/
theorem c2_counterexample :
    ("azureml://bad" ≠ "" ∧ "azureml://bad" ≠ ConnectionProviderConfig.LOCAL
      ∧ extract_workspace "azureml://bad" = none)
    ∧ init_from_provider_config "azureml://bad"
        = .error (ProviderConfigError.malformedConnectionProviderConfig "azureml://bad") := by
  decide

/-- C2 amended: for every provider-config string that is neither empty nor equal
to local and does not start with the azureml scheme token,
`init_from_provider_config` fails with UnsupportedConnectionProviderConfig, the
offending string and the two accepted forms embedded in the message. Strings
that do start with the scheme token but fail the URI-shape parse are instead
rejected as malformed by the workspace extraction. -/
theorem c2_amended (provider_config : String)
    (h1 : provider_config ≠ "")
    (h2 : provider_config ≠ ConnectionProviderConfig.LOCAL)
    (h3 : strStartsWith provider_config ConnectionProviderConfig.AZUREML = false) :
    init_from_provider_config provider_config =
      .error (ProviderConfigError.unsupportedConnectionProviderConfig
        ("Unsupported connection provider config: " ++ provider_config ++
         ", only local and azureml://subscriptions/<your-subscription>/resourceGroups/<your-resourcegroup>/providers/Microsoft.MachineLearningServices/workspaces/<your-workspace> are expected as value.")) := by
  simp [init_from_provider_config, h1, h2, h3]

/-- C2 witness: the string consul is rejected as unsupported with the offending
string embedded in the message. -/
theorem c2_witness :
    init_from_provider_config "consul" =
      .error (ProviderConfigError.unsupportedConnectionProviderConfig
        ("Unsupported connection provider config: " ++ "consul" ++
         ", only local and azureml://subscriptions/<your-subscription>/resourceGroups/<your-resourcegroup>/providers/Microsoft.MachineLearningServices/workspaces/<your-workspace> are expected as value.")) :=
  c2_amended "consul" (by decide) (by decide) (by decide)

/-- C3: `open_url` classifies the raw status code: 403 raises AccessDenied on
the url; any other status in the 4xx range raises OpenURLFailedUserError with
the url and reason; any remaining status other than 200 raises OpenURLFailed
with the url and reason; exactly status 200 yields the parsed body, deserialized
into the model when one is supplied and raw otherwise. -/
theorem c3_open_url_classification {α β : Type} (token : String) (status_code : Nat)
    (url reason : String) (data : α) (model : Option (α → β)) :
    (status_code = 403 →
      open_url token status_code url reason data model = OpenUrlResult.accessDenied url)
  ∧ (status_code ≠ 403 → 400 ≤ status_code → status_code < 500 →
      open_url token status_code url reason data model
        = OpenUrlResult.openUrlFailedUserError url reason)
  ∧ (status_code ≠ 403 → ¬(400 ≤ status_code ∧ status_code < 500) → status_code ≠ 200 →
      open_url token status_code url reason data model = OpenUrlResult.openUrlFailed url reason)
  ∧ (status_code = 200 →
      open_url token status_code url reason data model
        = match model with
          | some deserialize => OpenUrlResult.ok (Sum.inr (deserialize data))
          | none => OpenUrlResult.ok (Sum.inl data)) := by
  refine ⟨fun h => ?_, fun h h1 h2 => ?_, fun h h1 h2 => ?_, fun h => ?_⟩ <;>
    subst_vars <;> unfold open_url <;> split_ifs <;> first | rfl | omega

/-- C3 witness: concrete statuses land in each class: 403 is access denied, 404
is the user-error class, 500 is the system class, and 200 deserializes through
the supplied model. -/
theorem c3_witness :
    open_url "tok" 403 "/conn" "Forbidden" (0 : Nat) (none : Option (Nat → Nat))
        = OpenUrlResult.accessDenied "/conn"
  ∧ open_url "tok" 404 "/conn" "Not Found" (0 : Nat) (none : Option (Nat → Nat))
        = OpenUrlResult.openUrlFailedUserError "/conn" "Not Found"
  ∧ open_url "tok" 500 "/conn" "Server Error" (0 : Nat) (none : Option (Nat → Nat))
        = OpenUrlResult.openUrlFailed "/conn" "Server Error"
  ∧ open_url "tok" 200 "/conn" "OK" (7 : Nat) (some (fun n => n + 1))
        = OpenUrlResult.ok (Sum.inr 8) :=
  ⟨(c3_open_url_classification "tok" 403 "/conn" "Forbidden" 0 none).1 rfl,
   (c3_open_url_classification "tok" 404 "/conn" "Not Found" 0 none).2.1
     (by decide) (by decide) (by decide),
   (c3_open_url_classification "tok" 500 "/conn" "Server Error" 0 none).2.2.1
     (by decide) (by decide) (by decide),
   (c3_open_url_classification "tok" 200 "/conn" "OK" 7 (some (fun n => n + 1))).2.2.2 rfl⟩

/-- C4: the source `validate_and_fallback_connection_type` equals the reference
definition transcribed from the specification: an explicitly present type name
is returned regardless of category, the AzureOpenAI, CognitiveSearch and
Serverless categories fall back to the category name, CognitiveService maps the
Kind metadata field (Content Safety to AzureContentSafety, Form Recognizer to
FormRecognizer), and every other kind or category raises UnknownConnectionType
carrying the category and connection name. -/
theorem c4_resolve_type_name (name : String) (type_name : Option String)
    (category : String) (metadata : Dict) :
    validate_and_fallback_connection_type name type_name category metadata
      = resolveTypeNameSpec name type_name category metadata := by
  cases type_name with
  | none => rfl
  | some t =>
    by_cases h : t = ""
    · subst h; rfl
    · simp [validate_and_fallback_connection_type, resolveTypeNameSpec, pyTruthyStr, h]

/-- C5 counterexample: for a Serverless resource with auth type AAD, the
returned descriptor does not retain an apiKey entry mapped to null: the final
filter keeps only Python-truthy values, so the null apiKey produced by the auth
config is stripped together with empty strings. -/
theorem c5_counterexample :
    build_connection_dict_from_rest_object "conn"
      { category := ConnectionCategory.Serverless, auth_type := some "AAD",
        target := some "https://serverless.example",
        credentials := { key := none, keys := [] }, metadata := [] }
      = .ok { type := "ServerlessConnection", module := "promptflow.connections",
              secret_keys := none,
              value := [("auth_mode", some ConnectionAuthMode.MEID_TOKEN),
                        ("api_base", some "https://serverless.example")] }
  ∧ pyDictGet [("auth_mode", some ConnectionAuthMode.MEID_TOKEN),
               ("api_base", some "https://serverless.example")] "api_key" = none := by decide

/-- C5 amended: for every resource with auth type AAD for which
`build_connection_dict_from_rest_object` returns a descriptor, no entry of the
value map carries a null value at all: the final filter strips every falsy
value, null as well as the empty string, so the apiKey-to-null pair from the
auth config never survives into the descriptor. -/
theorem c5_amended (name : String) (properties : ConnectionProperties) (d : ConnectionDict)
    (hbuild : build_connection_dict_from_rest_object name properties = .ok d)
    (hauth : properties.auth_type = some ConnectionAuthType.AAD) :
    ∀ kv ∈ d.value, kv.2 ≠ none := by
  intro kv hkv hnone
  have htruthy := build_value_truthy name properties d hbuild kv hkv
  rw [hnone] at htruthy
  simp [pyTruthyStr] at htruthy

/-- C5 witness: a concrete AAD resource whose descriptor contains the auth-mode
entry, which is indeed non-null. -/
theorem c5_witness : (some ConnectionAuthMode.MEID_TOKEN : Option String) ≠ none :=
  c5_amended "aad_conn"
    { category := ConnectionCategory.Serverless, auth_type := some ConnectionAuthType.AAD,
      target := some "https://aad.example", credentials := { key := none, keys := [] },
      metadata := [] }
    { type := "ServerlessConnection", module := "promptflow.connections", secret_keys := none,
      value := [("auth_mode", some ConnectionAuthMode.MEID_TOKEN),
                ("api_base", some "https://aad.example")] }
    (by decide) rfl
    ("auth_mode", some ConnectionAuthMode.MEID_TOKEN) (by decide)

/-- C6: `get_auth_config`, matched case-insensitively on a string auth type,
returns the credentials key with the Key auth mode for ApiKey, a null api key
with the identity-token auth mode for AAD, and raises
UnsupportedConnectionAuthType for every other auth type string. -/
theorem c6_get_auth_config (props : ConnectionProperties) (t : String)
    (ht : props.auth_type = some t) :
    (strToLower t = strToLower ConnectionAuthType.ApiKey →
      get_auth_config props = .ok [("api_key", props.credentials.key),
                                   ("auth_mode", some ConnectionAuthMode.KEY)])
  ∧ (strToLower t = strToLower ConnectionAuthType.AAD →
      get_auth_config props = .ok [("api_key", none),
                                   ("auth_mode", some ConnectionAuthMode.MEID_TOKEN)])
  ∧ (strToLower t ≠ strToLower ConnectionAuthType.ApiKey →
     strToLower t ≠ strToLower ConnectionAuthType.AAD →
      get_auth_config props = .error (ConnError.unsupportedConnectionAuthType (some t))) := by
  refine ⟨fun h => ?_, fun h => ?_, fun h1 h2 => ?_⟩
  · simp [get_auth_config, ht, h]
  · have hne : strToLower t ≠ strToLower ConnectionAuthType.ApiKey := by
      rw [h]; decide
    simp [get_auth_config, ht, hne, h]
    intro habs
    exact absurd habs (by decide)
  · simp [get_auth_config, ht, h1, h2]

/-- C6 witness: the upper-cased auth type APIKEY matches ApiKey
case-insensitively and yields the credentials key with the Key auth mode. -/
theorem c6_witness :
    get_auth_config { category := ConnectionCategory.OpenAI, auth_type := some "APIKEY",
                      target := none, credentials := { key := some "sk-1", keys := [] },
                      metadata := [] }
      = .ok [("api_key", some "sk-1"), ("auth_mode", some ConnectionAuthMode.KEY)] :=
  (c6_get_auth_config
    { category := ConnectionCategory.OpenAI, auth_type := some "APIKEY",
      target := none, credentials := { key := some "sk-1", keys := [] }, metadata := [] }
    "APIKEY" rfl).1 (by decide)

/-- C7: in the recognized CLI/automation context, whenever obtaining and
validating the ambient identity credential fails, `_get_credential` raises
AccountNotSetUp, whatever the interactive-disabled and codespaces signals say:
the interactive-disabled, device-code and interactive-browser branches are never
reached. -/
theorem c7_account_not_set_up (interactive_disabled codespaces : Bool) :
    _get_credential true false interactive_disabled codespaces
      = .error CredentialError.accountNotSetUp := rfl

/-- C8 counterexample: when the CLI-branch validation succeeds with the
codespaces signal set, the returned credential is the device-code chain of the
third branch, the same result as in the non-CLI case: the later branches are
consulted after a successful CLI validation, so the four branches are not
mutually exclusive and the validated ambient credential is not the result. -/
theorem c8_counterexample :
    _get_credential true true false true
        = .ok Credential.defaultAzureCredentialWithDeviceCodeFallback
  ∧ _get_credential true true false true = _get_credential false true false true := by decide

/-- C8 amended: the CLI/automation branch only validates: on failure it raises
AccountNotSetUp, and on success (or outside the CLI context) control falls
through to the remaining three signals, which alone determine the returned
credential chain in their stated priority order. -/
theorem c8_amended (from_cli arm_token_ok interactive_disabled codespaces : Bool) :
    (from_cli = true → arm_token_ok = false →
      _get_credential from_cli arm_token_ok interactive_disabled codespaces
        = .error CredentialError.accountNotSetUp)
  ∧ (from_cli = false ∨ arm_token_ok = true →
      _get_credential from_cli arm_token_ok interactive_disabled codespaces
        = (if interactive_disabled then
             .ok Credential.defaultAzureCredentialExcludeInteractiveBrowser
           else if codespaces then
             .ok Credential.defaultAzureCredentialWithDeviceCodeFallback
           else .ok Credential.defaultAzureCredentialIncludeInteractiveBrowser)) := by
  constructor
  · intro h1 h2
    subst h1; subst h2
    rfl
  · intro h
    rcases h with h | h <;> subst h <;> simp [_get_credential]

/-- C8 witness: with CLI validation succeeding and interactive credentials
disabled, the second branch decides and the browser-excluding chain is
returned. -/
theorem c8_witness :
    _get_credential true true true false
      = .ok Credential.defaultAzureCredentialExcludeInteractiveBrowser :=
  (c8_amended true true true false).2 (Or.inr rfl)

/-- C9: whenever `build_connection_dict_from_rest_object` returns a descriptor,
no value of its value map is the empty string. -/
theorem c9_no_empty_values (name : String) (properties : ConnectionProperties)
    (d : ConnectionDict)
    (hbuild : build_connection_dict_from_rest_object name properties = .ok d) :
    ∀ kv ∈ d.value, kv.2 ≠ some "" := by
  intro kv hkv heq
  have htruthy := build_value_truthy name properties d hbuild kv hkv
  rw [heq] at htruthy
  simp [pyTruthyStr] at htruthy

/-- C9 witness: a concrete AzureOpenAI resource builds successfully and its
api-key entry is not the empty string. -/
theorem c9_witness : (some "k9" : Option String) ≠ some "" :=
  c9_no_empty_values "aoai_conn"
    { category := ConnectionCategory.AzureOpenAI, auth_type := some "ApiKey",
      target := some "https://aoai.example",
      credentials := { key := some "k9", keys := [] },
      metadata := [("ApiVersion", "2023-07-01-preview")] }
    { type := "AzureOpenAIConnection", module := "promptflow.connections", secret_keys := none,
      value := [("api_key", some "k9"), ("auth_mode", some ConnectionAuthMode.KEY),
                ("api_base", some "https://aoai.example"),
                ("api_version", some "2023-07-01-preview")] }
    (by decide) ("api_key", some "k9") (by decide)

/-- C10: for every resource whose auth type is not a string (modelled as the
absent value), `get_auth_config` raises the typed UnsupportedConnectionAuthType
error, the same classification as an unrecognized auth type string, rather than
an untyped attribute or type error. -/
theorem c10_non_string_auth_type (category : String) (target : Option String)
    (credentials : Credentials) (metadata : Dict) :
    get_auth_config { category := category, auth_type := none, target := target,
                      credentials := credentials, metadata := metadata }
      = .error (ConnError.unsupportedConnectionAuthType none) := rfl
